import Mathlib

/-!
# OpenSearch Description Document (OSDD) parser — verification development

The repository under study ships only the unit tests of Chromium's
`TemplateURLParser` (`template_url_parser_unittest.cc`).  The parser itself
(`TemplateURLParser::Parse`, `TemplateURL`, `TemplateURLRef`) is not part of
the sources, so the parsing core below is modelled from the specification
(`spec.md`, §3–§4 and §7).  The one component whose code is present — the
test helper `ParamFilterImpl::KeepParameter` — is translated directly from
the source.

The XML walker is an external dependency in the spec ("not re-specified
here"), so documents are represented as already-decoded trees and the
byte-level decoding step is an explicit function argument of `Parse`.
OSDD documents are inspected only to depth two below the root (root
children, and `Parameter` children of `Url` elements), so the tree type is
stratified accordingly.
-/

set_option maxRecDepth 100000

namespace Osdd

/-- An XML element nested inside a root child (used for the `Parameter`
extension elements inside `Url`).  `ns` is the optional namespace. -/
structure XmlLeaf where
  ns : Option String
  name : String
  attrs : List (String × String)
  text : String
deriving DecidableEq

/-- A direct child element of the OSDD root (`ShortName`, `Url`, `Image`,
`InputEncoding`, `LongName`, or anything unrecognized). -/
structure XmlChild where
  ns : Option String
  name : String
  attrs : List (String × String)
  children : List XmlLeaf
  text : String
deriving DecidableEq

/-- The root element of a decoded XML document. -/
structure XmlRoot where
  ns : Option String
  name : String
  children : List XmlChild
deriving DecidableEq

/-- HTTP transport method of a `Url` element (spec §3: enumerated GET/POST,
default GET when the attribute is absent). -/
inductive Method where
  | GET
  | POST
deriving DecidableEq

/-- Role a `Url` element serves (spec §3: primary search endpoint or
suggestion endpoint). -/
inductive Role where
  | search
  | suggestions
deriving DecidableEq

/-- Modelled from the spec (§3, URLTemplate): the assembled template string
together with the transport method extracted from the `method` attribute. -/
structure URLTemplate where
  raw_template : String
  method : Method
deriving DecidableEq

/-- Modelled from the spec (§3, SearchEngineDescriptor): the parse result. -/
structure SearchEngineDescriptor where
  short_name : String
  long_name : String
  favicon_url : Option String
  search_url : Option URLTemplate
  suggestions_url : Option URLTemplate
  input_encodings : List String
deriving DecidableEq

/-- Modelled from the spec (§7): the parse-level failure kinds. -/
inductive ParseError where
  | MalformedXml
  | InvalidRoot
  | MissingRequiredField
deriving DecidableEq

deriving instance DecidableEq for Except

/-- Modelled from the spec (§4.4): a caller-supplied predicate
`keep(name, value) -> bool` over individual query parameters. -/
def ParameterFilter : Type := String → String → Bool

/-- The literal placeholder token substituted with the user's query
(spec glossary). -/
def placeholder : String := "{searchTerms}"

/-- Number of positions of `hay` at which `needle` occurs. -/
def countOcc (needle : List Char) : List Char → Nat
  | [] => 0
  | c :: t => (if needle.isPrefixOf (c :: t) then 1 else 0) + countOcc needle t

/-- Modelled from the spec (§3): `SupportsReplacement()` is true iff the
assembled template contains exactly one occurrence of the placeholder. -/
def SupportsReplacement (t : URLTemplate) : Bool :=
  countOcc placeholder.data t.raw_template.data == 1

/-- ASCII whitespace test used for trimming element text. -/
def isWs (c : Char) : Bool :=
  c = ' ' || c = '\t' || c = '\n' || c = '\r'

/-- Trim ASCII whitespace from both ends of element text (spec §4.2:
`ShortName`/`LongName` trim whitespace then assign verbatim). -/
def trimText (s : String) : String :=
  ⟨((s.data.dropWhile isWs).reverse.dropWhile isWs).reverse⟩

/-- Lower-case the ASCII letters of a string (used for the case-insensitive
`method` attribute comparison). -/
def toLowerAscii (s : String) : String :=
  ⟨s.data.map fun c =>
    if 'A' ≤ c ∧ c ≤ 'Z' then Char.ofNat (c.toNat + 32) else c⟩

/-- Modelled from the spec (§4.2/§4.3): only absolute URLs with scheme
`http` or `https` are accepted. -/
def isHttpOrHttps (url : String) : Bool :=
  "http://".data.isPrefixOf url.data || "https://".data.isPrefixOf url.data

/-- First value bound to `key` in an attribute list, if any. -/
def getAttr (attrs : List (String × String)) (key : String) : Option String :=
  (attrs.find? fun p => p.1 == key).map Prod.snd

/-- Modelled from the spec (§3/§4.3): the `method` attribute, compared
case-insensitively, defaulting to GET when absent or unrecognized. -/
def parseMethod (attrs : List (String × String)) : Method :=
  match getAttr attrs "method" with
  | none => .GET
  | some m => if toLowerAscii m = "post" then .POST else .GET

/-- Modelled from the spec (§4.3): the `type` attribute distinguishes the
"suggestion" role from the "search" role; an unrecognized or missing type is
treated as the "search" role.  The suggestion role is declared with the
OpenSearch suggestion MIME type. -/
def parseRole (attrs : List (String × String)) : Role :=
  match getAttr attrs "type" with
  | some "application/x-suggestions+json" => .suggestions
  | _ => .search

/-- A character kept verbatim by percent-encoding (RFC 3986 unreserved). -/
def isUnreservedChar (c : Char) : Bool :=
  ('a' ≤ c && c ≤ 'z') || ('A' ≤ c && c ≤ 'Z') || ('0' ≤ c && c ≤ '9') ||
    c = '-' || c = '.' || c = '_' || c = '~'

/-- Upper-case hexadecimal digit for `n % 16`. -/
def hexDigit (n : Nat) : Char :=
  if n < 10 then Char.ofNat ('0'.toNat + n % 16)
  else Char.ofNat ('A'.toNat + n % 16 - 10)

/-- Percent-encode every non-unreserved character of a string. -/
def percentEncode (s : String) : String :=
  ⟨s.data.foldr (fun c acc =>
    if isUnreservedChar c then c :: acc
    else '%' :: hexDigit (c.toNat / 16) :: hexDigit (c.toNat % 16) :: acc) []⟩

/-- Modelled from the spec (§4.3 step 3): a value that is the literal
placeholder is inserted unescaped; any other value is percent-encoded. -/
def encodeParamValue (v : String) : String :=
  if v = placeholder then v else percentEncode v

/-- The `name`/`value` pairs of the nested `Parameter` extension elements of
a `Url` element, in document order (spec §4.3). -/
def paramsOf (children : List XmlLeaf) : List (String × String) :=
  children.filterMap fun c =>
    if c.name = "Parameter" then
      some ((getAttr c.attrs "name").getD "", (getAttr c.attrs "value").getD "")
    else none

/-- Modelled from the spec (§4.3 steps 3–4): append each kept parameter as
`name=value` to the template's query string, using `?` when no query string
exists yet and `&` thereafter. -/
def appendParams (keep : String → String → Bool) (base : String)
    (params : List (String × String)) : String :=
  params.foldl (fun acc p =>
    if keep p.1 p.2 then
      acc ++ (if acc.data.contains '?' then "&" else "?") ++
        p.1 ++ "=" ++ encodeParamValue p.2
    else acc) base

/-- Modelled from the spec (§4.3): the URL Template Builder, invoked per
`Url` element.  Returns the element's role with the assembled template on
success; `none` when the element is discarded (POST method, non-http(s)
scheme, or a template that is not substitution-capable). -/
def buildURLTemplate (keep : String → String → Bool) (e : XmlChild) :
    Option (Role × URLTemplate) :=
  let method := parseMethod e.attrs
  let role := parseRole e.attrs
  if method = .POST then none
  else
    let base := (getAttr e.attrs "template").getD ""
    if isHttpOrHttps base then
      let t : URLTemplate := ⟨appendParams keep base (paramsOf e.children), method⟩
      if SupportsReplacement t then some (role, t) else none
    else none

/-- The descriptor before any element has been handled. -/
def initDescriptor : SearchEngineDescriptor :=
  ⟨"", "", none, none, none, []⟩

/-- Modelled from the spec (§4.1–§4.3): one handler per recognized element
kind, with a default arm skipping unrecognized elements.  For `Url`
elements the first valid template of each role wins; later ones are
ignored. -/
def handleElement (keep : String → String → Bool)
    (d : SearchEngineDescriptor) (e : XmlChild) : SearchEngineDescriptor :=
  if e.name = "ShortName" then { d with short_name := trimText e.text }
  else if e.name = "LongName" then { d with long_name := trimText e.text }
  else if e.name = "Image" then
    if isHttpOrHttps e.text then { d with favicon_url := some e.text } else d
  else if e.name = "InputEncoding" then
    { d with input_encodings := d.input_encodings ++ [e.text] }
  else if e.name = "Url" then
    match buildURLTemplate keep e with
    | some (.search, t) =>
        if d.search_url = none then { d with search_url := some t } else d
    | some (.suggestions, t) =>
        if d.suggestions_url = none then { d with suggestions_url := some t } else d
    | none => d
  else d

/-- The expected OSDD root element name. -/
def kOSDDRootName : String := "OpenSearchDescription"

/-- The effective keep predicate: keep all parameters when no filter was
supplied (spec §3). -/
def keepF (filter : Option ParameterFilter) : String → String → Bool :=
  match filter with
  | none => fun _ _ => true
  | some f => f

/-- Modelled from the spec (§4.1): walk the decoded document, dispatch each
root child to its handler, and require a valid, substitution-capable,
non-POST search URL at the end.  Element-name matching never consults the
namespace fields (namespace tolerance, spec §9). -/
def parseRoot (filter : Option ParameterFilter) (root : XmlRoot) :
    Except ParseError SearchEngineDescriptor :=
  if root.name = kOSDDRootName then
    let d := root.children.foldl (handleElement (keepF filter)) initDescriptor
    match d.search_url with
    | some t =>
        if SupportsReplacement t && t.method == .GET then .ok d
        else .error .MissingRequiredField
    | none => .error .MissingRequiredField
  else .error .InvalidRoot

/-- Modelled from the spec (§4.1): `Parse(bytes, filter)`.  The XML walker
that decodes the byte buffer is an external dependency (spec §2), so it is
passed as the `decodeXml` argument; a buffer it cannot decode is not
well-formed XML and yields `MalformedXml`.  The function is total: every
byte sequence produces a defined result. -/
def Parse (decodeXml : List Nat → Option XmlRoot) (bytes : List Nat)
    (filter : Option ParameterFilter) : Except ParseError SearchEngineDescriptor :=
  match decodeXml bytes with
  | none => .error .MalformedXml
  | some root => parseRoot filter root

/-- Translated from the source (`template_url_parser_unittest.cc`,
`ParamFilterImpl::KeepParameter`): position of the first occurrence of
`needle` in `hay`, `none` standing for `std::string::npos`. -/
def strFindPos (hay needle : List Char) : Option Nat :=
  (List.range (hay.length + 1)).find? fun i => needle.isPrefixOf (hay.drop i)

/-- Translated from the source (`template_url_parser_unittest.cc` lines
147–150): keep a parameter iff `name_str` is empty or does not occur in the
key, and `value_str` is empty or does not occur in the value. -/
def KeepParameter (name_str value_str : String) (key value : String) : Bool :=
  (name_str.data.isEmpty || (strFindPos key.data name_str.data).isNone) &&
  (value_str.data.isEmpty || (strFindPos value.data value_str.data).isNone)

/-! ## Concrete documents mirroring the test fixtures

The OSDD fixture files of the test suite are non-redistributable and absent
from the repository, so documents with the fields the tests assert are
reconstructed here. -/

/-- The OSDD namespace URI, attached to fixtures that declare a namespace. -/
def osddNs : String := "http://a9.com/-/spec/opensearch/1.1/"

/-- A document mirroring the `wikipedia.xml` fixture of `TestWikipedia`. -/
def wikipediaRoot : XmlRoot :=
  ⟨some osddNs, "OpenSearchDescription",
    [⟨none, "ShortName", [], [], "Wikipedia (English)"⟩,
     ⟨none, "Image", [("width", "16"), ("height", "16")], [],
       "http://en.wikipedia.org/favicon.ico"⟩,
     ⟨none, "Url",
       [("type", "application/x-suggestions+json"),
        ("template",
          "http://en.wikipedia.org/w/api.php?action=opensearch&search={searchTerms}")],
       [], ""⟩,
     ⟨none, "Url",
       [("type", "text/html"),
        ("template",
          "http://en.wikipedia.org/w/index.php?title=Special:Search&search={searchTerms}")],
       [], ""⟩,
     ⟨none, "InputEncoding", [], [], "UTF-8"⟩,
     ⟨none, "InputEncoding", [], [], "Shift_JIS"⟩]⟩

/-- The descriptor `TestWikipedia` expects. -/
def wikipediaDescriptor : SearchEngineDescriptor :=
  ⟨"Wikipedia (English)", "",
   some "http://en.wikipedia.org/favicon.ico",
   some ⟨"http://en.wikipedia.org/w/index.php?title=Special:Search&search={searchTerms}",
         .GET⟩,
   some ⟨"http://en.wikipedia.org/w/api.php?action=opensearch&search={searchTerms}",
         .GET⟩,
   ["UTF-8", "Shift_JIS"]⟩

/-- A document mirroring the `post_suggestion.xml` fixture of
`TestPostSuggestion`: the Yahoo document with the suggestion `Url` switched
to `method="POST"`. -/
def postSuggestionRoot : XmlRoot :=
  ⟨some osddNs, "OpenSearchDescription",
    [⟨none, "ShortName", [], [], "Yahoo"⟩,
     ⟨none, "Image", [("width", "16"), ("height", "16")], [],
       "http://search.yahoo.com/favicon.ico"⟩,
     ⟨none, "Url",
       [("type", "application/x-suggestions+json"), ("method", "POST"),
        ("template", "http://ff.search.yahoo.com/gossip")],
       [⟨none, "Parameter", [("name", "output"), ("value", "fxjson")], ""⟩,
        ⟨none, "Parameter", [("name", "command"), ("value", "{searchTerms}")], ""⟩],
       ""⟩,
     ⟨none, "Url",
       [("type", "text/html"), ("method", "GET"),
        ("template", "http://search.yahoo.com/search")],
       [⟨none, "Parameter", [("name", "p"), ("value", "{searchTerms}")], ""⟩,
        ⟨none, "Parameter", [("name", "ei"), ("value", "UTF-8")], ""⟩,
        ⟨none, "Parameter", [("name", "appid"), ("value", "Mozilla-search")], ""⟩],
       ""⟩,
     ⟨none, "InputEncoding", [], [], "UTF-8"⟩]⟩

/-- A document mirroring the `firefox_ebay.xml` fixture of
`TestFirefoxEbay`: the search `Url` carries `Parameter` extension elements,
two of which mention "ebay" in their name or value. -/
def ebayRoot : XmlRoot :=
  ⟨none, "OpenSearchDescription",
    [⟨none, "ShortName", [], [], "eBay"⟩,
     ⟨none, "Image", [], [], "http://search.ebay.com/favicon.ico"⟩,
     ⟨none, "Url",
       [("type", "text/html"),
        ("template", "http://search.ebay.com/search/search.dll")],
       [⟨none, "Parameter", [("name", "query"), ("value", "{searchTerms}")], ""⟩,
        ⟨none, "Parameter", [("name", "sofocus"), ("value", "ebayitem")], ""⟩,
        ⟨none, "Parameter", [("name", "MfcISAPICommand"), ("value", "GetResult")], ""⟩,
        ⟨none, "Parameter", [("name", "ht"), ("value", "1")], ""⟩,
        ⟨none, "Parameter", [("name", "ebaytag1"), ("value", "6")], ""⟩,
        ⟨none, "Parameter", [("name", "srchdesc"), ("value", "n")], ""⟩,
        ⟨none, "Parameter", [("name", "maxRecordsReturned"), ("value", "300")], ""⟩,
        ⟨none, "Parameter", [("name", "maxRecordsPerPage"), ("value", "50")], ""⟩,
        ⟨none, "Parameter", [("name", "SortProperty"), ("value", "MetaEndSort")], ""⟩],
       ""⟩,
     ⟨none, "InputEncoding", [], [], "ISO-8859-1"⟩]⟩

/-- The search URL `TestFirefoxEbay` expects: the "ebay" parameters are
omitted, the rest appear in document order. -/
def ebayExpectedUrl : String :=
  "http://search.ebay.com/search/search.dll?query={searchTerms}&MfcISAPICommand=GetResult&ht=1&srchdesc=n&maxRecordsReturned=300&maxRecordsPerPage=50&SortProperty=MetaEndSort"

/-- A document mirroring the `dictionary.xml` fixture of `TestDictionary`:
the placeholder sits in the path component and the base template already has
a query string. -/
def dictionaryRoot : XmlRoot :=
  ⟨none, "OpenSearchDescription",
    [⟨none, "ShortName", [], [], "Dictionary.com"⟩,
     ⟨none, "Image", [], [], "http://cache.lexico.com/g/d/favicon.ico"⟩,
     ⟨none, "Url",
       [("type", "text/html"),
        ("template", "http://dictionary.reference.com/browse/{searchTerms}?r=75")],
       [], ""⟩]⟩

/-- A document whose only search `Url` uses method POST, mirroring the
`post.xml` fixture of `FailOnPost`. -/
def postOnlyRoot : XmlRoot :=
  ⟨none, "OpenSearchDescription",
    [⟨none, "ShortName", [], [], "Post engine"⟩,
     ⟨none, "Url",
       [("type", "text/html"), ("method", "POST"),
        ("template", "http://example.com/search?q={searchTerms}")],
       [], ""⟩]⟩

/-- A document whose only `Url` element has no attributes at all, mirroring
the `url_with_no_attributes.xml` fixture of `NoCrashOnEmptyAttributes`. -/
def noAttributesRoot : XmlRoot :=
  ⟨none, "OpenSearchDescription",
    [⟨none, "Url", [], [], ""⟩]⟩

/-- The stored search URL, when present, is substitution-capable and uses
method GET (the validity invariant of spec §3). -/
def searchOk (d : SearchEngineDescriptor) : Bool :=
  d.search_url.all fun t => SupportsReplacement t && t.method == Method.GET

/-! ## Supporting lemmas -/

/-- A `Url` element whose method parses to POST builds no template
(spec §4.3 step 1). -/
theorem buildURLTemplate_post_none (k : String → String → Bool) (e : XmlChild)
    (hp : parseMethod e.attrs = Method.POST) :
    buildURLTemplate k e = none := by
  rw [buildURLTemplate, hp]
  rfl

/-- Every template the builder emits carries the element's role, supports
replacement, and uses method GET. -/
theorem buildURLTemplate_some (k : String → String → Bool) (e : XmlChild)
    (role : Role) (t : URLTemplate)
    (hb : buildURLTemplate k e = some (role, t)) :
    role = parseRole e.attrs ∧ SupportsReplacement t = true ∧
      t.method = Method.GET := by
  rcases hmeth : parseMethod e.attrs with _ | _
  · simp only [buildURLTemplate, hmeth] at hb
    split_ifs at hb <;>
      first
      | exact Option.noConfusion hb
      | (simp only [Option.some.injEq, Prod.mk.injEq] at hb
         rcases hb with ⟨hrole, ht⟩
         subst ht
         exact ⟨hrole.symm, by assumption, rfl⟩)
  · rw [buildURLTemplate_post_none k e hmeth] at hb
    exact Option.noConfusion hb

/-- A handler invocation cannot set `search_url` unless the element is a
`Url` element whose builder yields a search-role template. -/
theorem handleElement_search_url_of_none (k : String → String → Bool)
    (d : SearchEngineDescriptor) (e : XmlChild)
    (h : e.name = "Url" →
      (buildURLTemplate k e).all (fun p => p.1 == Role.suggestions) = true)
    (hd : d.search_url = none) :
    (handleElement k d e).search_url = none := by
  unfold handleElement
  by_cases h1 : e.name = "ShortName"
  · simp [h1, hd]
  rw [if_neg h1]
  by_cases h2 : e.name = "LongName"
  · simp [h2, hd]
  rw [if_neg h2]
  by_cases h3 : e.name = "Image"
  · by_cases hi : isHttpOrHttps e.text <;> simp [h3, hi, hd]
  rw [if_neg h3]
  by_cases h4 : e.name = "InputEncoding"
  · simp [h4, hd]
  rw [if_neg h4]
  by_cases h5 : e.name = "Url"
  · rw [if_pos h5]
    specialize h h5
    rcases hb : buildURLTemplate k e with _ | ⟨role, t⟩
    · exact hd
    · cases role with
      | search => rw [hb] at h; simp at h
      | suggestions =>
          by_cases hs : d.suggestions_url = none <;> simp [hs, hd]
  · rw [if_neg h5]
    exact hd

/-- Folding the handlers over a child list none of whose `Url` elements
yields a search-role template keeps `search_url` empty. -/
theorem foldl_search_url_none (k : String → String → Bool) :
    ∀ (l : List XmlChild) (d : SearchEngineDescriptor),
      (∀ e ∈ l, e.name = "Url" →
        (buildURLTemplate k e).all (fun p => p.1 == Role.suggestions) = true) →
      d.search_url = none →
      (l.foldl (handleElement k) d).search_url = none
  | [], _, _, hd => hd
  | e :: t, d, h, hd => by
      simp only [List.foldl_cons]
      exact foldl_search_url_none k t (handleElement k d e)
        (fun x hx h' => h x (List.mem_cons_of_mem _ hx) h')
        (handleElement_search_url_of_none k d e (h e (List.mem_cons_self _ _)) hd)

/-- A handler invocation cannot set `suggestions_url` unless the element is
a `Url` element whose builder yields a suggestion-role template. -/
theorem handleElement_suggestions_url_of_none (k : String → String → Bool)
    (d : SearchEngineDescriptor) (e : XmlChild)
    (h : e.name = "Url" →
      (buildURLTemplate k e).all (fun p => p.1 == Role.search) = true)
    (hd : d.suggestions_url = none) :
    (handleElement k d e).suggestions_url = none := by
  unfold handleElement
  by_cases h1 : e.name = "ShortName"
  · simp [h1, hd]
  rw [if_neg h1]
  by_cases h2 : e.name = "LongName"
  · simp [h2, hd]
  rw [if_neg h2]
  by_cases h3 : e.name = "Image"
  · by_cases hi : isHttpOrHttps e.text <;> simp [h3, hi, hd]
  rw [if_neg h3]
  by_cases h4 : e.name = "InputEncoding"
  · simp [h4, hd]
  rw [if_neg h4]
  by_cases h5 : e.name = "Url"
  · rw [if_pos h5]
    specialize h h5
    rcases hb : buildURLTemplate k e with _ | ⟨role, t⟩
    · exact hd
    · cases role with
      | suggestions => rw [hb] at h; simp at h
      | search =>
          by_cases hs : d.search_url = none <;> simp [hs, hd]
  · rw [if_neg h5]
    exact hd

/-- Folding the handlers over a child list none of whose `Url` elements
yields a suggestion-role template keeps `suggestions_url` empty. -/
theorem foldl_suggestions_url_none (k : String → String → Bool) :
    ∀ (l : List XmlChild) (d : SearchEngineDescriptor),
      (∀ e ∈ l, e.name = "Url" →
        (buildURLTemplate k e).all (fun p => p.1 == Role.search) = true) →
      d.suggestions_url = none →
      (l.foldl (handleElement k) d).suggestions_url = none
  | [], _, _, hd => hd
  | e :: t, d, h, hd => by
      simp only [List.foldl_cons]
      exact foldl_suggestions_url_none k t (handleElement k d e)
        (fun x hx h' => h x (List.mem_cons_of_mem _ hx) h')
        (handleElement_suggestions_url_of_none k d e (h e (List.mem_cons_self _ _)) hd)

/-- The handlers preserve the validity invariant of the stored search
URL. -/
theorem handleElement_searchOk (k : String → String → Bool)
    (d : SearchEngineDescriptor) (e : XmlChild)
    (hd : searchOk d = true) : searchOk (handleElement k d e) = true := by
  unfold handleElement
  by_cases h1 : e.name = "ShortName"
  · simpa [searchOk, h1] using hd
  rw [if_neg h1]
  by_cases h2 : e.name = "LongName"
  · simpa [searchOk, h2] using hd
  rw [if_neg h2]
  by_cases h3 : e.name = "Image"
  · by_cases hi : isHttpOrHttps e.text <;> simpa [hi, searchOk, h3] using hd
  rw [if_neg h3]
  by_cases h4 : e.name = "InputEncoding"
  · simpa [searchOk, h4] using hd
  rw [if_neg h4]
  by_cases h5 : e.name = "Url"
  · rw [if_pos h5]
    rcases hb : buildURLTemplate k e with _ | ⟨role, t⟩
    · exact hd
    · rcases buildURLTemplate_some k e role t hb with ⟨_, hsr, hmg⟩
      cases role with
      | search =>
          by_cases hs : d.search_url = none
          · simp [hs, searchOk, hsr, hmg]
          · simpa [hs, searchOk] using hd
      | suggestions =>
          by_cases hs : d.suggestions_url = none <;> simpa [hs, searchOk] using hd
  · rw [if_neg h5]
    exact hd

/-- The validity invariant holds after folding over any child list. -/
theorem foldl_searchOk (k : String → String → Bool) :
    ∀ (l : List XmlChild) (d : SearchEngineDescriptor),
      searchOk d = true → searchOk (l.foldl (handleElement k) d) = true
  | [], _, hd => hd
  | e :: t, d, hd => foldl_searchOk k t _ (handleElement_searchOk k d e hd)

/-- A handler invocation never clears a search URL that is already set. -/
theorem handleElement_search_url_isSome (k : String → String → Bool)
    (d : SearchEngineDescriptor) (e : XmlChild)
    (hd : d.search_url.isSome = true) :
    (handleElement k d e).search_url.isSome = true := by
  unfold handleElement
  by_cases h1 : e.name = "ShortName"
  · simpa [h1] using hd
  rw [if_neg h1]
  by_cases h2 : e.name = "LongName"
  · simpa [h2] using hd
  rw [if_neg h2]
  by_cases h3 : e.name = "Image"
  · by_cases hi : isHttpOrHttps e.text <;> simpa [hi, h3] using hd
  rw [if_neg h3]
  by_cases h4 : e.name = "InputEncoding"
  · simpa [h4] using hd
  rw [if_neg h4]
  by_cases h5 : e.name = "Url"
  · rw [if_pos h5]
    rcases hb : buildURLTemplate k e with _ | ⟨role, t⟩
    · exact hd
    · cases role with
      | search =>
          by_cases hs : d.search_url = none
          · rw [hs] at hd
            simp at hd
          · simpa [hs] using hd
      | suggestions =>
          by_cases hs : d.suggestions_url = none <;> simpa [hs] using hd
  · rw [if_neg h5]
    exact hd

/-- Once set, `search_url` stays set through the rest of the fold. -/
theorem foldl_search_url_isSome (k : String → String → Bool) :
    ∀ (l : List XmlChild) (d : SearchEngineDescriptor),
      d.search_url.isSome = true →
      (l.foldl (handleElement k) d).search_url.isSome = true
  | [], _, hd => hd
  | e :: t, d, hd => foldl_search_url_isSome k t _ (handleElement_search_url_isSome k d e hd)

/-- Handling a `Url` element whose builder yields a search-role template
leaves the search URL set (either it was set already, or it is set now). -/
theorem handleElement_search_url_isSome_of_build (k : String → String → Bool)
    (d : SearchEngineDescriptor) (e : XmlChild)
    (hname : e.name = "Url") (t : URLTemplate)
    (hb : buildURLTemplate k e = some (Role.search, t)) :
    (handleElement k d e).search_url.isSome = true := by
  unfold handleElement
  rw [if_neg (by simp [hname]), if_neg (by simp [hname]), if_neg (by simp [hname]),
    if_neg (by simp [hname]), if_pos hname, hb]
  by_cases hs : d.search_url = none
  · simp [hs]
  · simp [hs, Option.isSome_iff_ne_none]

/-- A child list containing a `Url` element with a valid search-role
template folds to a descriptor whose search URL is set. -/
theorem foldl_search_url_set (k : String → String → Bool) :
    ∀ (l : List XmlChild) (d : SearchEngineDescriptor),
      (∃ e ∈ l, e.name = "Url" ∧
        ∃ t, buildURLTemplate k e = some (Role.search, t)) →
      (l.foldl (handleElement k) d).search_url.isSome = true
  | [], _, h => by simp at h
  | e :: l, d, h => by
      rcases h with ⟨x, hx, hname, t, hb⟩
      rcases List.mem_cons.mp hx with rfl | hmem
      · exact foldl_search_url_isSome k l _
          (handleElement_search_url_isSome_of_build k d x hname t hb)
      · exact foldl_search_url_set k l _ ⟨x, hmem, hname, t, hb⟩

/-- Erase the namespace annotation of a nested element. -/
def stripLeafNs (e : XmlLeaf) : XmlLeaf :=
  ⟨none, e.name, e.attrs, e.text⟩

/-- Erase the namespace annotations of a root child and its children. -/
def stripChildNs (e : XmlChild) : XmlChild :=
  ⟨none, e.name, e.attrs, e.children.map stripLeafNs, e.text⟩

/-- Erase every namespace annotation of a document. -/
def stripRootNs (r : XmlRoot) : XmlRoot :=
  ⟨none, r.name, r.children.map stripChildNs⟩

theorem paramsOf_strip (l : List XmlLeaf) :
    paramsOf (l.map stripLeafNs) = paramsOf l := by
  rw [paramsOf, paramsOf, List.filterMap_map]
  rfl

theorem buildURLTemplate_strip (k : String → String → Bool) (e : XmlChild) :
    buildURLTemplate k (stripChildNs e) = buildURLTemplate k e := by
  unfold buildURLTemplate
  rw [show (stripChildNs e).attrs = e.attrs from rfl,
    show paramsOf (stripChildNs e).children = paramsOf e.children from by
      rw [show (stripChildNs e).children = e.children.map stripLeafNs from rfl,
        paramsOf_strip]]

theorem handleElement_strip (k : String → String → Bool)
    (d : SearchEngineDescriptor) (e : XmlChild) :
    handleElement k d (stripChildNs e) = handleElement k d e := by
  unfold handleElement
  rw [show (stripChildNs e).name = e.name from rfl,
    show (stripChildNs e).text = e.text from rfl,
    buildURLTemplate_strip]

theorem foldl_strip (k : String → String → Bool) :
    ∀ (l : List XmlChild) (d : SearchEngineDescriptor),
      (l.map stripChildNs).foldl (handleElement k) d = l.foldl (handleElement k) d
  | [], _ => rfl
  | e :: t, d => by
      simp only [List.map_cons, List.foldl_cons, handleElement_strip]
      exact foldl_strip k t _

/-- The test `p.isPrefixOf l` holds exactly when `l` starts with `p`. -/
theorem isPrefixOf_iff_exists (p : List Char) :
    ∀ l : List Char, p.isPrefixOf l = true ↔ ∃ t, l = p ++ t := by
  induction p with
  | nil => intro l; simp [List.isPrefixOf]
  | cons a p ih =>
      intro l
      cases l with
      | nil => simp [List.isPrefixOf]
      | cons b t =>
          simp only [List.isPrefixOf, Bool.and_eq_true, beq_iff_eq, ih,
            List.cons_append, List.cons.injEq]
          constructor
          · rintro ⟨hab, u, hu⟩
            exact ⟨u, hab.symm, hu⟩
          · rintro ⟨u, hab, hu⟩
            exact ⟨hab.symm, u, hu⟩

/-- The substring search of `KeepParameter` misses exactly when no
decomposition of the haystack around the needle exists. -/
theorem strFindPos_isNone_iff (hay needle : List Char) :
    (strFindPos hay needle).isNone = true ↔ ¬ ∃ s t, hay = s ++ needle ++ t := by
  rw [strFindPos, Option.isNone_iff_eq_none, List.find?_eq_none]
  constructor
  · rintro h ⟨s, t, hst⟩
    have hlen : s.length < hay.length + 1 := by
      subst hst
      simp [List.length_append]
      omega
    have hpre : needle.isPrefixOf (hay.drop s.length) = true := by
      rw [hst, List.append_assoc, List.drop_left, isPrefixOf_iff_exists]
      exact ⟨t, rfl⟩
    exact h s.length (List.mem_range.mpr hlen) hpre
  · intro h i _ hpre
    rcases (isPrefixOf_iff_exists needle _).mp hpre with ⟨t, ht⟩
    exact h ⟨hay.take i, t, by
      rw [List.append_assoc, ← ht, List.take_append_drop]⟩

/-! ## Claim theorems -/

/-- C1: for every well-formed OSDD document whose `Url` elements yield no
valid search-role template — in particular when the only search `Url` uses
method POST — `Parse` returns `MissingRequiredField` rather than success. -/
theorem parse_missing_search_url (decodeXml : List Nat → Option XmlRoot)
    (bytes : List Nat) (filter : Option ParameterFilter) (root : XmlRoot)
    (hdec : decodeXml bytes = some root)
    (hroot : root.name = kOSDDRootName)
    (h : ∀ e ∈ root.children, e.name = "Url" →
      (buildURLTemplate (keepF filter) e).all (fun p => p.1 == Role.suggestions) = true) :
    Parse decodeXml bytes filter = .error .MissingRequiredField := by
  have hnone := foldl_search_url_none (keepF filter) root.children initDescriptor h rfl
  rw [Parse, hdec]
  show parseRoot filter root = _
  rw [parseRoot, if_pos hroot]
  simp only [hnone]

/-- C1 witness: a document whose only search `Url` uses method POST. -/
theorem parse_missing_search_url_witness :
    (fun _ : List Nat => some postOnlyRoot) [] = some postOnlyRoot ∧
    postOnlyRoot.name = kOSDDRootName ∧
    (∀ e ∈ postOnlyRoot.children, e.name = "Url" →
      (buildURLTemplate (keepF none) e).all (fun p => p.1 == Role.suggestions) = true) ∧
    Parse (fun _ => some postOnlyRoot) [] none = .error .MissingRequiredField :=
  ⟨rfl, by decide, by decide,
    parse_missing_search_url _ [] none postOnlyRoot rfl (by decide) (by decide)⟩

/-- C2: every byte sequence the XML walker cannot decode as well-formed XML
makes `Parse` return `MalformedXml`.  `Parse` is a total function, so every
byte sequence produces a defined result (no crash, no undefined
behavior). -/
theorem parse_malformed_xml (decodeXml : List Nat → Option XmlRoot)
    (bytes : List Nat) (filter : Option ParameterFilter)
    (h : decodeXml bytes = none) :
    Parse decodeXml bytes filter = .error .MalformedXml := by
  rw [Parse, h]

/-- C2 witness: a decoder rejecting every buffer, on a concrete buffer. -/
theorem parse_malformed_xml_witness :
    (fun _ : List Nat => (none : Option XmlRoot)) [60, 98, 111, 103] = none ∧
    Parse (fun _ => none) [60, 98, 111, 103] none = .error .MalformedXml :=
  ⟨rfl, parse_malformed_xml _ [60, 98, 111, 103] none rfl⟩

/-- C3: a `Url` element whose `method` attribute is "post" in any letter
case never yields a template — so it is never selected as `search_url` (or
as any role): the `Url` handler leaves the descriptor untouched. -/
theorem post_url_never_selected (k : String → String → Bool) (e : XmlChild)
    (m : String)
    (hm : getAttr e.attrs "method" = some m)
    (hpost : toLowerAscii m = "post") :
    buildURLTemplate k e = none ∧
      ∀ d : SearchEngineDescriptor, e.name = "Url" → handleElement k d e = d := by
  have hmeth : parseMethod e.attrs = .POST := by
    simp [parseMethod, hm, hpost]
  have hbuild : buildURLTemplate k e = none := by
    rw [buildURLTemplate, hmeth]
    rfl
  refine ⟨hbuild, fun d hname => ?_⟩
  unfold handleElement
  simp [hname, hbuild]

/-- A `Url` element carrying a mixed-case POST method, for the C3 witness. -/
def postUrlElem : XmlChild :=
  ⟨none, "Url",
    [("type", "text/html"), ("method", "pOsT"),
     ("template", "http://example.com/?q={searchTerms}")],
    [], ""⟩

/-- C3 witness: a search-role `Url` with `method="pOsT"` is discarded. -/
theorem post_url_never_selected_witness :
    getAttr postUrlElem.attrs "method" = some "pOsT" ∧
    toLowerAscii "pOsT" = "post" ∧
    (buildURLTemplate (keepF none) postUrlElem = none ∧
      ∀ d : SearchEngineDescriptor, postUrlElem.name = "Url" →
        handleElement (keepF none) d postUrlElem = d) :=
  ⟨by decide, by decide,
    post_url_never_selected (keepF none) postUrlElem "pOsT" (by decide) (by decide)⟩

/-- C4: for every otherwise-valid OSDD document — well-formed root, some
`Url` element yielding a valid search-role template — all of whose
suggestion-role `Url` elements declare method POST, the parse succeeds:
`suggestions_url` is left absent (the POST suggestion is discarded, not an
error) while `search_url` is present and substitution-capable. -/
theorem post_suggestion_discarded (filter : Option ParameterFilter)
    (root : XmlRoot)
    (hroot : root.name = kOSDDRootName)
    (hsug : ∀ e ∈ root.children, e.name = "Url" →
      parseRole e.attrs = Role.suggestions → parseMethod e.attrs = Method.POST)
    (hsearch : ∃ e ∈ root.children, e.name = "Url" ∧
      (buildURLTemplate (keepF filter) e).any (fun p => p.1 == Role.search) = true) :
    ∃ d t, parseRoot filter root = .ok d ∧
      d.suggestions_url = none ∧ d.search_url = some t ∧
      SupportsReplacement t = true := by
  have hall : ∀ e ∈ root.children, e.name = "Url" →
      (buildURLTemplate (keepF filter) e).all (fun p => p.1 == Role.search) = true := by
    intro e he hname
    rcases hb : buildURLTemplate (keepF filter) e with _ | ⟨role, t⟩
    · rfl
    · rcases buildURLTemplate_some (keepF filter) e role t hb with ⟨hrole, _, _⟩
      cases role with
      | search => rfl
      | suggestions =>
          have hpost := hsug e he hname hrole.symm
          rw [buildURLTemplate_post_none (keepF filter) e hpost] at hb
          exact Option.noConfusion hb
  have hsearch' : ∃ e ∈ root.children, e.name = "Url" ∧
      ∃ t, buildURLTemplate (keepF filter) e = some (Role.search, t) := by
    rcases hsearch with ⟨e, he, hname, hany⟩
    refine ⟨e, he, hname, ?_⟩
    rcases hb : buildURLTemplate (keepF filter) e with _ | ⟨role, t⟩
    · rw [hb] at hany
      simp [Option.any] at hany
    · rw [hb] at hany
      cases role with
      | search => exact ⟨t, rfl⟩
      | suggestions => simp [Option.any] at hany
  have hfold_sug :=
    foldl_suggestions_url_none (keepF filter) root.children initDescriptor hall rfl
  have hfold_some :=
    foldl_search_url_set (keepF filter) root.children initDescriptor hsearch'
  have hfold_ok := foldl_searchOk (keepF filter) root.children initDescriptor rfl
  rcases Option.isSome_iff_exists.mp hfold_some with ⟨t, ht⟩
  have hcond : (SupportsReplacement t && t.method == Method.GET) = true := by
    rw [searchOk, ht] at hfold_ok
    simpa [Option.all] using hfold_ok
  refine ⟨_, t, ?_, hfold_sug, ht, ?_⟩
  · rw [parseRoot, if_pos hroot]
    simp only [ht, hcond]
    exact if_pos trivial
  · exact ((Bool.and_eq_true _ _).mp hcond).1

/-- C4 witness: the Yahoo-style document whose suggestion `Url` declares
method POST, with the value filter of the original test. -/
theorem post_suggestion_discarded_witness :
    postSuggestionRoot.name = kOSDDRootName ∧
    (∀ e ∈ postSuggestionRoot.children, e.name = "Url" →
      parseRole e.attrs = Role.suggestions → parseMethod e.attrs = Method.POST) ∧
    (∃ e ∈ postSuggestionRoot.children, e.name = "Url" ∧
      (buildURLTemplate (keepF (some (KeepParameter "" "Mozilla"))) e).any
        (fun p => p.1 == Role.search) = true) ∧
    (∃ d t, parseRoot (some (KeepParameter "" "Mozilla")) postSuggestionRoot = .ok d ∧
      d.suggestions_url = none ∧ d.search_url = some t ∧
      SupportsReplacement t = true) ∧
    parseRoot (some (KeepParameter "" "Mozilla")) postSuggestionRoot =
      .ok ⟨"Yahoo", "", some "http://search.yahoo.com/favicon.ico",
        some ⟨"http://search.yahoo.com/search?p={searchTerms}&ei=UTF-8", .GET⟩,
        none, ["UTF-8"]⟩ :=
  ⟨by decide, by decide, by decide,
    post_suggestion_discarded (some (KeepParameter "" "Mozilla")) postSuggestionRoot
      (by decide) (by decide) (by decide),
    by decide⟩

/-- C5: the Wikipedia document parses, with no filter, to exactly the
expected descriptor, both templates being substitution-capable. -/
theorem wikipedia_roundtrip :
    parseRoot none wikipediaRoot = .ok wikipediaDescriptor ∧
    wikipediaDescriptor.search_url.map SupportsReplacement = some true ∧
    wikipediaDescriptor.suggestions_url.map SupportsReplacement = some true := by
  decide

/-- C6: with the filter excluding parameters whose name or value contains
"ebay", the eBay document's `search_url` is the base template followed by
exactly the kept parameters in document order; the excluded parameter names
do not occur in it. -/
theorem ebay_filter_excludes_params :
    parseRoot (some (KeepParameter "ebay" "ebay")) ebayRoot =
      .ok ⟨"eBay", "", some "http://search.ebay.com/favicon.ico",
        some ⟨ebayExpectedUrl, .GET⟩, none, ["ISO-8859-1"]⟩ ∧
    (strFindPos ebayExpectedUrl.data "sofocus".data).isNone = true ∧
    (strFindPos ebayExpectedUrl.data "ebaytag1".data).isNone = true := by
  decide

/-- C7: element-name matching never consults namespace annotations: a
document with namespace annotations parses to exactly the same result as
its unnamespaced equivalent, for every document and filter. -/
theorem namespace_tolerance (filter : Option ParameterFilter) (root : XmlRoot) :
    parseRoot filter (stripRootNs root) = parseRoot filter root := by
  unfold parseRoot
  rw [show (stripRootNs root).name = root.name from rfl,
    show (stripRootNs root).children = root.children.map stripChildNs from rfl,
    foldl_strip]

/-- C8: a `Url` element with no attributes at all is handled without any
effect: the handler is total (no crash) and leaves every descriptor field,
in particular both URL roles, unchanged.  A document containing only such a
`Url` parses to the defined result `MissingRequiredField`. -/
theorem url_no_attributes_unset :
    (∀ (k : String → String → Bool) (d : SearchEngineDescriptor)
      (ns : Option String) (children : List XmlLeaf) (text : String),
      handleElement k d ⟨ns, "Url", [], children, text⟩ = d) ∧
    parseRoot none noAttributesRoot = .error .MissingRequiredField := by
  constructor
  · intro k d ns children text
    have hbuild : buildURLTemplate k ⟨ns, "Url", [], children, text⟩ = none := by
      rfl
    unfold handleElement
    simp [hbuild]
  · decide

/-- C9: the substring-exclusion filter keeps a parameter iff the name
pattern is empty or absent from the key, and the value pattern is empty or
absent from the value; the filter built from two empty strings keeps every
parameter. -/
theorem keepParameter_spec (name_str value_str key value : String) :
    (KeepParameter name_str value_str key value = true ↔
      ((name_str = "" ∨ ¬ ∃ s t, key.data = s ++ name_str.data ++ t) ∧
       (value_str = "" ∨ ¬ ∃ s t, value.data = s ++ value_str.data ++ t))) ∧
    KeepParameter "" "" key value = true := by
  constructor
  · rw [KeepParameter, Bool.and_eq_true, Bool.or_eq_true, Bool.or_eq_true,
      strFindPos_isNone_iff, strFindPos_isNone_iff,
      List.isEmpty_iff, List.isEmpty_iff]
    constructor
    · rintro ⟨h1, h2⟩
      exact ⟨h1.imp (fun h => String.ext h) id, h2.imp (fun h => String.ext h) id⟩
    · rintro ⟨h1, h2⟩
      exact ⟨h1.imp (fun h => by rw [h]) id, h2.imp (fun h => by rw [h]) id⟩
  · rfl

/-- C10: a template whose single placeholder sits in the path component —
`http://dictionary.reference.com/browse/{searchTerms}?r=75` — supports
replacement and is accepted as the valid `search_url` of its document. -/
theorem placeholder_in_path_supported :
    SupportsReplacement
      ⟨"http://dictionary.reference.com/browse/{searchTerms}?r=75", .GET⟩ = true ∧
    parseRoot none dictionaryRoot =
      .ok ⟨"Dictionary.com", "",
        some "http://cache.lexico.com/g/d/favicon.ico",
        some ⟨"http://dictionary.reference.com/browse/{searchTerms}?r=75", .GET⟩,
        none, []⟩ := by
  decide

end Osdd
